import Mathlib

/-!
Verification of the `datediff` crate (src/lib.rs): a calendar date-difference
utility built on a calendar collaborator (`chrono::NaiveDate`).

The collaborator (chrono) is external to the repository; it is modelled here
as the proleptic Gregorian calendar: `isLeap`, the month-length table
`daysInMonthG`, the date-validity check performed by `NaiveDate::from_ymd`
(`fromYmd`, returning `none` where chrono panics), and a day-count numbering
`dayNumber` used to model `signed_duration_since(..).num_days()`.

The repository's own functions `total_days_in_month` and `get_diff` are
translated line by line from src/lib.rs.  Fallible calls (chrono panics on an
invalid `from_ymd`) are propagated as `Option`; Rust's `as u32` casts are
modelled as `Int.emod` by `2 ^ 32` followed by `Int.toNat`.
-/

namespace Datediff

/-- A calendar date, the shape of `chrono::NaiveDate`'s observable data:
signed year, month, day. -/
structure Date where
  year : Int
  month : Nat
  day : Nat
  deriving DecidableEq

/-- The result type of src/lib.rs: `days`, `months`, `years` are `u32`
(modelled as `Nat`, with the casts producing them taken mod `2 ^ 32`),
`positive` the direction flag. -/
structure Interval where
  days : Nat
  months : Nat
  years : Nat
  positive : Bool
  deriving DecidableEq

/-- Modelled from the spec: the calendar collaborator's leap-year rule
(proleptic Gregorian, as implemented by chrono). -/
def isLeap (y : Int) : Bool :=
  y % 4 == 0 && (y % 100 != 0 || y % 400 == 0)

/-- Modelled from the spec: the calendar collaborator's month lengths
(Gregorian table; `0` for a month outside `[1,12]`). -/
def daysInMonthG (y : Int) (m : Nat) : Nat :=
  match m with
  | 1 => 31
  | 2 => if isLeap y then 29 else 28
  | 3 => 31
  | 4 => 30
  | 5 => 31
  | 6 => 30
  | 7 => 31
  | 8 => 31
  | 9 => 30
  | 10 => 31
  | 11 => 30
  | 12 => 31
  | _ => 0

/-- Modelled from the spec: `chrono::NaiveDate::from_ymd`, which panics
(here: `none`) unless the month is in `[1,12]` and the day is in
`[1, days-in-month]`. -/
def fromYmd (y : Int) (m d : Nat) : Option Date :=
  if 1 ≤ m ∧ m ≤ 12 ∧ 1 ≤ d ∧ d ≤ daysInMonthG y m then some ⟨y, m, d⟩ else none

/-- Modelled from the spec: a proleptic-Gregorian day numbering (days from
a fixed epoch, March-based civil formula); `signed_duration_since(a).num_days()`
of the collaborator is `dayNumber b - dayNumber a` for valid dates. -/
def dayNumber (y : Int) (m : Nat) (d : Nat) : Int :=
  let yy : Int := if m ≤ 2 then y - 1 else y
  let mp : Int := if m ≤ 2 then (m : Int) + 9 else (m : Int) - 3
  365 * yy + yy / 4 - yy / 100 + yy / 400 + (153 * mp + 2) / 5 + ((d : Int) - 1)

/-- A valid calendar date (the `Date` contract of the spec: month in `[1,12]`,
day in `[1, days-in-month]`, year inside the collaborator's supported signed
range).  Modelled from the spec: the collaborator (chrono's `NaiveDate`)
supports years in `[-262144, 262143]`. -/
def validDate (dt : Date) : Bool :=
  decide (1 ≤ dt.month ∧ dt.month ≤ 12 ∧ 1 ≤ dt.day ∧ dt.day ≤ daysInMonthG dt.year dt.month
    ∧ -262144 ≤ dt.year ∧ dt.year ≤ 262143)

/-- Chronological strict order on dates (chrono's `<` on `NaiveDate`, which
for valid dates is lexicographic on (year, month, day)). -/
def dateLt (a b : Date) : Bool :=
  decide (a.year < b.year ∨ (a.year = b.year ∧
    (a.month < b.month ∨ (a.month = b.month ∧ a.day < b.day))))

/-- Translation of `total_days_in_month` (src/lib.rs lines 46-54): day count
from the first of this month to the first of the next month, `num_days()` cast
`as u32`; `none` where chrono would panic. -/
def total_days_in_month (year : Int) (month : Nat) : Option Nat :=
  match (if month = 12 then fromYmd (year + 1) 1 1 else fromYmd year (month + 1) 1),
        fromYmd year month 1 with
  | some a, some b =>
      some (((dayNumber a.year a.month a.day - dayNumber b.year b.month b.day) % (2 ^ 32)).toNat)
  | _, _ => none

/-- The borrow/normalize core of `get_diff` (src/lib.rs lines 138-153), after
order normalization: takes the earlier date `s` and the later date `e`, returns
the `(days, months, years)` magnitudes (each cast `as u32`, i.e. mod `2 ^ 32`). -/
def diffCore (s e : Date) : Option (Nat × Nat × Nat) :=
  let start_day : Int := (s.day : Int)
  let start_month : Int := (s.month : Int)
  let start_year : Int := s.year
  let end_day : Int := (e.day : Int)
  let end_month : Int := (e.month : Int)
  let end_year : Int := e.year
  let borrowed : Option (Int × Int) :=
    if end_day < start_day then
      (if end_month > 1 then total_days_in_month e.year (e.month - 1)
       else total_days_in_month (e.year - 1) 12).map
        (fun (n : Nat) => (end_day + (n : Int), end_month - 1))
    else
      some (end_day, end_month)
  borrowed.map (fun x =>
    let em2 : Int := if x.2 < start_month then x.2 + 12 else x.2
    let ey2 : Int := if x.2 < start_month then end_year - 1 else end_year
    (((x.1 - start_day) % (2 ^ 32)).toNat,
     ((em2 - start_month) % (2 ^ 32)).toNat,
     ((ey2 - start_year) % (2 ^ 32)).toNat))

/-- Translation of `get_diff` (src/lib.rs lines 119-155): order-normalize the
two dates (recording `positive`), then run the borrow core. -/
def get_diff (start0 endd : Date) : Option Interval :=
  let p : Bool := if dateLt endd start0 then false else true
  let s : Date := if dateLt endd start0 then endd else start0
  let e : Date := if dateLt endd start0 then start0 else endd
  (diffCore s e).map (fun x => ⟨x.1, x.2.1, x.2.2, p⟩)

/-- The collaborator's day numbering advances from the first of a month to the
first of the next month by exactly the Gregorian month length. -/
theorem dayNumber_succ (y : Int) (m : Nat) (h1 : 1 ≤ m) (h2 : m ≤ 12) :
    dayNumber (if m = 12 then y + 1 else y) (if m = 12 then 1 else m + 1) 1
      - dayNumber y m 1 = (daysInMonthG y m : Int) := by
  interval_cases m <;>
    (simp only [dayNumber, daysInMonthG, isLeap, Bool.and_eq_true, Bool.or_eq_true,
       beq_iff_eq, bne_iff_ne, ne_eq, decide_eq_true_eq];
     norm_num;
     all_goals (split_ifs <;> omega))

/-- Gregorian month lengths are between 28 and 31. -/
theorem daysInMonthG_bounds (y : Int) (m : Nat) (h1 : 1 ≤ m) (h2 : m ≤ 12) :
    28 ≤ daysInMonthG y m ∧ daysInMonthG y m ≤ 31 := by
  interval_cases m <;> simp only [daysInMonthG] <;>
    first
    | omega
    | (split_ifs <;> omega)

/-- On a valid month, `total_days_in_month` does not panic and returns the
Gregorian month length. -/
theorem total_days_in_month_eq (y : Int) (m : Nat) (h1 : 1 ≤ m) (h2 : m ≤ 12) :
    total_days_in_month y m = some (daysInMonthG y m) := by
  have hb := daysInMonthG_bounds y m h1 h2
  have hs := dayNumber_succ y m h1 h2
  have hnext : (if m = 12 then fromYmd (y + 1) 1 1 else fromYmd y (m + 1) 1)
      = some ⟨if m = 12 then y + 1 else y, if m = 12 then 1 else m + 1, 1⟩ := by
    have hb' := daysInMonthG_bounds (y + 1) 1 (by omega) (by omega)
    by_cases h : m = 12
    · have hc : 1 ≤ 1 ∧ 1 ≤ 12 ∧ 1 ≤ 1 ∧ 1 ≤ daysInMonthG (y + 1) 1 := by omega
      simp only [if_pos h, fromYmd, if_pos hc]
    · have hm1 : 1 ≤ m + 1 := by omega
      have hm12 : m + 1 ≤ 12 := by omega
      have hb'' := daysInMonthG_bounds y (m + 1) hm1 hm12
      have hc : 1 ≤ m + 1 ∧ m + 1 ≤ 12 ∧ 1 ≤ 1 ∧ 1 ≤ daysInMonthG y (m + 1) := by omega
      simp only [if_neg h, fromYmd, if_pos hc]
  have hthis : fromYmd y m 1 = some ⟨y, m, 1⟩ := by
    have hc : 1 ≤ m ∧ m ≤ 12 ∧ 1 ≤ 1 ∧ 1 ≤ daysInMonthG y m := by omega
    simp only [fromYmd, if_pos hc]
  rw [total_days_in_month, hnext, hthis]
  simp only [hs]
  congr 1
  omega

/-- Chronological order is irreflexive. -/
theorem dateLt_irrefl (a : Date) : dateLt a a = false := by
  simp [dateLt]

/-- Chronological order is asymmetric. -/
theorem dateLt_asymm (a b : Date) (h : dateLt a b = true) : dateLt b a = false := by
  simp only [dateLt, decide_eq_true_eq, decide_eq_false_iff_not] at h ⊢
  omega

/-- Distinct dates are strictly comparable in one direction. -/
theorem dateLt_of_ne (a b : Date) (h : a ≠ b) : dateLt a b = true ∨ dateLt b a = true := by
  obtain ⟨ay, am, ad⟩ := a
  obtain ⟨cy, cm, cd⟩ := b
  simp only [ne_eq, Date.mk.injEq, not_and] at h
  simp only [dateLt, decide_eq_true_eq]
  omega

/-- C3: for every valid date `d`, `get_diff d d` is the zero interval with
`positive = true` (identity property). -/
theorem C3_identity (d : Date) (_hd : validDate d = true) :
    get_diff d d = some ⟨0, 0, 0, true⟩ := by
  simp [get_diff, diffCore, dateLt_irrefl]

/-- Witness for C3 at the concrete valid date 2020-01-01. -/
theorem C3_identity_witness :
    validDate ⟨2020, 1, 1⟩ = true ∧ get_diff ⟨2020, 1, 1⟩ ⟨2020, 1, 1⟩ = some ⟨0, 0, 0, true⟩ :=
  ⟨by decide, C3_identity ⟨2020, 1, 1⟩ (by decide)⟩

/-- C9: the six concrete borrow-correctness scenarios of the spec, evaluated
on the translated `get_diff`. -/
theorem C9_concrete_scenarios :
    get_diff ⟨2020, 1, 1⟩ ⟨2020, 1, 1⟩ = some ⟨0, 0, 0, true⟩
    ∧ get_diff ⟨2020, 2, 5⟩ ⟨2013, 1, 1⟩ = some ⟨4, 1, 7, false⟩
    ∧ get_diff ⟨2013, 2, 5⟩ ⟨2020, 1, 1⟩ = some ⟨27, 10, 6, true⟩
    ∧ get_diff ⟨3040, 3, 1⟩ ⟨1102, 1, 5⟩ = some ⟨25, 1, 1938, false⟩
    ∧ get_diff ⟨1857, 1, 5⟩ ⟨2020, 1, 1⟩ = some ⟨27, 11, 162, true⟩
    ∧ get_diff ⟨1947, 8, 15⟩ ⟨1950, 1, 26⟩ = some ⟨11, 5, 2, true⟩ := by
  decide

/-- C1 (refuting evaluation): at start = 2021-01-31, end = 2021-03-01 — both
valid dates, in chronological order — the borrow adds only February's 28 days,
the day subtraction is `29 - 31 = -2` before the `as u32` cast, and the `days`
field of the result is `2 ^ 32 - 2 = 4294967294`: unsigned wraparound, exactly
what the claim rules out. -/
theorem C1_days_wraparound :
    validDate ⟨2021, 1, 31⟩ = true ∧ validDate ⟨2021, 3, 1⟩ = true
    ∧ dateLt ⟨2021, 1, 31⟩ ⟨2021, 3, 1⟩ = true
    ∧ get_diff ⟨2021, 1, 31⟩ ⟨2021, 3, 1⟩ = some ⟨4294967294, 1, 0, true⟩
    ∧ (4294967294 : Nat) = 2 ^ 32 - 2 := by
  decide

/-- The borrow core never hits the oracle's panic path: the months it passes
are always in `[1,12]`, so it always returns a result. -/
theorem diffCore_isSome (s e : Date) (he1 : 1 ≤ e.month) (he2 : e.month ≤ 12) :
    (diffCore s e).isSome = true := by
  simp only [diffCore]
  by_cases hd : (e.day : Int) < (s.day : Int)
  · rw [if_pos hd]
    by_cases hm : (e.month : Int) > 1
    · rw [if_pos hm, total_days_in_month_eq e.year (e.month - 1) (by omega) (by omega)]
      simp
    · rw [if_neg hm, total_days_in_month_eq (e.year - 1) 12 (by omega) (by omega)]
      simp
  · rw [if_neg hd]
    simp

/-- The months magnitude produced by the borrow core is at most 11. -/
theorem diffCore_months_le (s e : Date) (hs1 : 1 ≤ s.month) (hs2 : s.month ≤ 12)
    (he1 : 1 ≤ e.month) (he2 : e.month ≤ 12) :
    ∀ x, diffCore s e = some x → x.2.1 ≤ 11 := by
  intro x hx
  simp only [diffCore] at hx
  by_cases hd : (e.day : Int) < (s.day : Int)
  · rw [if_pos hd] at hx
    by_cases hm : (e.month : Int) > 1
    · rw [if_pos hm, total_days_in_month_eq e.year (e.month - 1) (by omega) (by omega)] at hx
      simp only [Option.map_some'] at hx
      obtain rfl := (Option.some.inj hx).symm
      try dsimp only
      split_ifs <;> omega
    · rw [if_neg hm, total_days_in_month_eq (e.year - 1) 12 (by omega) (by omega)] at hx
      simp only [Option.map_some'] at hx
      obtain rfl := (Option.some.inj hx).symm
      try dsimp only
      split_ifs <;> omega
  · rw [if_neg hd] at hx
    simp only [Option.map_some'] at hx
    obtain rfl := (Option.some.inj hx).symm
    try dsimp only
    split_ifs <;> omega

/-- C6: `get_diff` is total on valid dates: every oracle call it makes stays
on a month in `[1,12]`, so the fatal-abort (`none`) path of
`total_days_in_month` is unreachable and `get_diff` always returns a result. -/
theorem C6_total (a b : Date) (ha : validDate a = true) (hb : validDate b = true) :
    (get_diff a b).isSome = true := by
  simp only [validDate, decide_eq_true_eq] at ha hb
  rw [get_diff]
  by_cases h : dateLt b a
  · simp only [h, if_true, Option.isSome_map']
    exact diffCore_isSome b a ha.1 ha.2.1
  · simp only [h, if_false, Option.isSome_map']
    exact diffCore_isSome a b hb.1 hb.2.1

/-- Witness for C6 at the concrete pair 2013-02-05, 2020-01-01. -/
theorem C6_total_witness :
    validDate ⟨2013, 2, 5⟩ = true ∧ validDate ⟨2020, 1, 1⟩ = true
    ∧ (get_diff ⟨2013, 2, 5⟩ ⟨2020, 1, 1⟩).isSome = true :=
  ⟨by decide, by decide, C6_total ⟨2013, 2, 5⟩ ⟨2020, 1, 1⟩ (by decide) (by decide)⟩

/-- C5: for every pair of valid dates, the `months` field of the interval
returned by `get_diff` is at most 11 (being a `Nat`, it is also at least 0):
the normalization never leaves `months` at 12 or above. -/
theorem C5_months_le (a b : Date) (ha : validDate a = true) (hb : validDate b = true)
    (i : Interval) (hi : get_diff a b = some i) : i.months ≤ 11 := by
  simp only [validDate, decide_eq_true_eq] at ha hb
  rw [get_diff] at hi
  by_cases h : dateLt b a
  · simp only [h, if_true] at hi
    obtain ⟨x, hx, hfx⟩ := Option.map_eq_some'.mp hi
    have := diffCore_months_le b a hb.1 hb.2.1 ha.1 ha.2.1 x hx
    rw [← hfx]
    exact this
  · simp only [h, if_false] at hi
    obtain ⟨x, hx, hfx⟩ := Option.map_eq_some'.mp hi
    have := diffCore_months_le a b ha.1 ha.2.1 hb.1 hb.2.1 x hx
    rw [← hfx]
    exact this

/-- Witness for C5 at the concrete pair 2013-02-05, 2020-01-01 (months = 10). -/
theorem C5_months_le_witness :
    Interval.months ⟨27, 10, 6, true⟩ ≤ 11 :=
  C5_months_le ⟨2013, 2, 5⟩ ⟨2020, 1, 1⟩ (by decide) (by decide) ⟨27, 10, 6, true⟩ (by decide)

/-- C4: antisymmetry — for valid distinct dates `a` and `b`, `get_diff a b`
and `get_diff b a` have identical magnitude fields and opposite `positive`
flags. -/
theorem C4_antisymmetry (a b : Date) (_ha : validDate a = true) (_hb : validDate b = true)
    (hne : a ≠ b) (ia ib : Interval)
    (hia : get_diff a b = some ia) (hib : get_diff b a = some ib) :
    ia.years = ib.years ∧ ia.months = ib.months ∧ ia.days = ib.days
      ∧ ia.positive = !ib.positive := by
  rcases dateLt_of_ne a b hne with h | h
  · have h' : dateLt b a = false := dateLt_asymm a b h
    rw [get_diff] at hia hib
    simp only [h, h'] at hia hib
    simp only [Bool.false_eq_true, if_false, if_true] at hia hib
    obtain ⟨x, hx, hfx⟩ := Option.map_eq_some'.mp hia
    obtain ⟨y, hy, hfy⟩ := Option.map_eq_some'.mp hib
    rw [hx] at hy
    obtain rfl := Option.some.inj hy
    rw [← hfx, ← hfy]
    exact ⟨rfl, rfl, rfl, rfl⟩
  · have h' : dateLt a b = false := dateLt_asymm b a h
    rw [get_diff] at hia hib
    simp only [h, h'] at hia hib
    simp only [Bool.false_eq_true, if_false, if_true] at hia hib
    obtain ⟨x, hx, hfx⟩ := Option.map_eq_some'.mp hia
    obtain ⟨y, hy, hfy⟩ := Option.map_eq_some'.mp hib
    rw [hx] at hy
    obtain rfl := Option.some.inj hy
    rw [← hfx, ← hfy]
    exact ⟨rfl, rfl, rfl, rfl⟩

/-- Witness for C4 at the distinct valid pair 1947-08-15 and 1950-01-26. -/
theorem C4_antisymmetry_witness :
    Interval.years ⟨11, 5, 2, true⟩ = Interval.years ⟨11, 5, 2, false⟩
    ∧ Interval.months ⟨11, 5, 2, true⟩ = Interval.months ⟨11, 5, 2, false⟩
    ∧ Interval.days ⟨11, 5, 2, true⟩ = Interval.days ⟨11, 5, 2, false⟩
    ∧ Interval.positive ⟨11, 5, 2, true⟩ = !Interval.positive ⟨11, 5, 2, false⟩ :=
  C4_antisymmetry ⟨1947, 8, 15⟩ ⟨1950, 1, 26⟩ (by decide) (by decide) (by decide)
    ⟨11, 5, 2, true⟩ ⟨11, 5, 2, false⟩ (by decide) (by decide)

/-- C2: when the day borrow fires with the later date's month equal to 1, the
borrow takes December's 31 days from the prior year, the month-borrow step then
necessarily fires (the month reached 0 and the earlier month is at least 1),
and the year is decremented exactly once in the result: the interval is
`(later.day + 31 - earlier.day` days, `12 - earlier.month` months,
`later.year - 1 - earlier.year` years, positive)`.  The spec's dedicated
scenario `get_diff(2020-01-31, 2021-01-05) = (0y 11m 5d, positive)` is the
witness below. -/
theorem C2_january_borrow (s e : Date) (hs : validDate s = true) (he : validDate e = true)
    (hord : dateLt e s = false) (hm1 : e.month = 1) (hdb : e.day < s.day) :
    get_diff s e = some ⟨e.day + 31 - s.day, 12 - s.month, (e.year - 1 - s.year).toNat, true⟩ := by
  simp only [validDate, decide_eq_true_eq] at hs he
  obtain ⟨hs1, hs2, hs3, hs4, hs5, hs6⟩ := hs
  obtain ⟨he1, he2, he3, he4, he5, he6⟩ := he
  have hsd : s.day ≤ 31 := le_trans hs4 (daysInMonthG_bounds s.year s.month hs1 hs2).2
  have hyr : s.year < e.year := by
    simp only [dateLt, decide_eq_false_iff_not] at hord
    omega
  rw [get_diff]
  simp only [hord]
  simp only [Bool.false_eq_true, if_false]
  rw [diffCore]
  have hdbi : (e.day : Int) < (s.day : Int) := by exact_mod_cast hdb
  rw [if_pos hdbi]
  have hmi : ¬ ((e.month : Int) > 1) := by omega
  rw [if_neg hmi]
  rw [total_days_in_month_eq (e.year - 1) 12 (by omega) (by omega)]
  have h12 : daysInMonthG (e.year - 1) 12 = 31 := rfl
  rw [h12]
  simp only [Option.map_some']
  have hlt : ((e.month : Int) - 1) < (s.month : Int) := by omega
  rw [if_pos hlt, if_pos hlt]
  congr 1
  simp only [Interval.mk.injEq]
  refine ⟨by omega, by omega, by omega, trivial⟩

/-- Witness for C2: the spec's dedicated double-decrement scenario,
`get_diff(2020-01-31, 2021-01-05) = (5 days, 11 months, 0 years, positive)`. -/
theorem C2_january_borrow_witness :
    get_diff ⟨2020, 1, 31⟩ ⟨2021, 1, 5⟩ = some ⟨5, 11, 0, true⟩ := by
  have h := C2_january_borrow ⟨2020, 1, 31⟩ ⟨2021, 1, 5⟩ (by decide) (by decide)
    (by decide) rfl (by decide)
  exact h

/-- C7: leap-year month lengths — for every year, `total_days_in_month y 2`
is 29 exactly when `y` is a leap year under the collaborator's rule, and
`total_days_in_month y 6` is 30; including the spec's examples 2020, 1752,
2019 and 3016. -/
theorem C7_leap_months :
    (∀ y : Int, ((total_days_in_month y 2 = some 29) ↔ isLeap y = true)
      ∧ total_days_in_month y 6 = some 30)
    ∧ total_days_in_month 2020 2 = some 29
    ∧ total_days_in_month 1752 2 = some 29
    ∧ total_days_in_month 2019 2 = some 28
    ∧ total_days_in_month 3016 6 = some 30 := by
  refine ⟨fun y => ⟨?_, ?_⟩, by decide, by decide, by decide, by decide⟩
  · rw [total_days_in_month_eq y 2 (by omega) (by omega)]
    have h2 : daysInMonthG y 2 = if isLeap y then 29 else 28 := rfl
    rw [h2]
    constructor
    · intro h
      by_cases hl : isLeap y
      · exact hl
      · rw [if_neg hl] at h
        exact absurd (Option.some.inj h) (by omega)
    · intro hl
      rw [if_pos hl]
  · rw [total_days_in_month_eq y 6 (by omega) (by omega)]
    rfl

/-- C8: `total_days_in_month` fails fatally (modelled: returns `none`, the
panic path) for every month outside `[1,12]`, for every year. -/
theorem C8_invalid_month (y : Int) (m : Nat) (h : m = 0 ∨ 13 ≤ m) :
    total_days_in_month y m = none := by
  have hthis : fromYmd y m 1 = none := by
    rw [fromYmd, if_neg]
    intro hc
    omega
  have h12 : m ≠ 12 := by omega
  rw [total_days_in_month, if_neg h12]
  rcases hfy : fromYmd y (m + 1) 1 with _ | a <;> rw [hthis]

/-- Witness for C8 at year 2020, month 13. -/
theorem C8_invalid_month_witness :
    (13 = 0 ∨ 13 ≤ 13) ∧ total_days_in_month 2020 13 = none :=
  ⟨Or.inr (by decide), C8_invalid_month 2020 13 (Or.inr (by decide))⟩

/-- C10: for every month in `[1,12]` and every year, `total_days_in_month`
returns a value between 28 and 31: 28 or 29 exactly for month 2, and at least
30 otherwise — so every day borrow in `get_diff` adds between 28 and 31 days. -/
theorem C10_oracle_bounds (y : Int) (m : Nat) (h1 : 1 ≤ m) (h2 : m ≤ 12) :
    ∃ n, total_days_in_month y m = some n ∧ 28 ≤ n ∧ n ≤ 31
      ∧ (m = 2 → n ≤ 29) ∧ (m ≠ 2 → 30 ≤ n) := by
  refine ⟨daysInMonthG y m, total_days_in_month_eq y m h1 h2,
    (daysInMonthG_bounds y m h1 h2).1, (daysInMonthG_bounds y m h1 h2).2, ?_, ?_⟩
  · intro hm
    subst hm
    have h2' : daysInMonthG y 2 = if isLeap y then 29 else 28 := rfl
    rw [h2']
    split_ifs <;> omega
  · intro hm
    interval_cases m <;> simp only [daysInMonthG] <;> omega

/-- Witness for C10 at year 2019, month 2 (February, 28 days). -/
theorem C10_oracle_bounds_witness :
    ∃ n, total_days_in_month 2019 2 = some n ∧ 28 ≤ n ∧ n ≤ 31
      ∧ (2 = 2 → n ≤ 29) ∧ (2 ≠ 2 → 30 ≤ n) :=
  C10_oracle_bounds 2019 2 (by decide) (by decide)

end Datediff
